import Mathlib

/-!
Verification of the cross-platform utility module
`src/cli/utils/platform_utils.py` of the agent-starter-pack repository.

The Python module reads one ambient OS-information source
(`platform.system()`), probes the PATH (`shutil.which`), mutates the
process environment (`os.environ.setdefault`), spawns sub-processes
(`subprocess.run`) and writes files.  The shallow embedding makes each
of those ambient effects an explicit parameter:

* the OS name string `sys` stands for the value of `platform.system()`;
* `which : String → Option String` stands for `shutil.which`;
* `Env := String → Option String` stands for `os.environ`;
* an `OsProcessOracle` stands for the operating system behind
  `subprocess.run`;
* `FileSystem := String → Option String` (path ↦ content) together with
  a `writeFails : String → Bool` oracle stands for the filesystem,
  `writeFails p = true` meaning that opening `p` for writing raises.

Every definition below is a direct transcription of the corresponding
Python function, keeping its name.
-/

/-- `is_windows` from platform_utils.py: `platform.system() == "Windows"`,
with the OS report passed explicitly. -/
def is_windows (sys : String) : Bool :=
  sys == "Windows"

/-- `is_macos` from platform_utils.py: `platform.system() == "Darwin"`. -/
def is_macos (sys : String) : Bool :=
  sys == "Darwin"

/-- `is_linux` from platform_utils.py: `platform.system() == "Linux"`. -/
def is_linux (sys : String) : Bool :=
  sys == "Linux"

/-- Modelled from the spec: the spec's "Other" case of the platform
identity — the OS name matches none of the three recognised systems.
(The Python module has no such predicate; it is the complement of the
three predicates above.) -/
def is_other (sys : String) : Bool :=
  !(is_windows sys || is_macos sys || is_linux sys)

/-- Modelled from the spec: the spec's `PlatformIdentity` enumeration
with variants {Windows, macOS, Linux, Other}.  The Python module keeps
the identity implicit in the three boolean predicates. -/
inductive PlatformIdentity where
  | windows
  | macos
  | linux
  | other
deriving DecidableEq, Repr

/-- Modelled from the spec: `detect_platform` classifies the OS name
string into exactly one `PlatformIdentity` variant, using the module's
own predicates in the order Windows, macOS, Linux, Other. -/
def detect_platform (sys : String) : PlatformIdentity :=
  if is_windows sys then PlatformIdentity.windows
  else if is_macos sys then PlatformIdentity.macos
  else if is_linux sys then PlatformIdentity.linux
  else PlatformIdentity.other

/-- The boolean predicate belonging to a `PlatformIdentity` variant. -/
def predicate_of (p : PlatformIdentity) : String → Bool :=
  match p with
  | PlatformIdentity.windows => is_windows
  | PlatformIdentity.macos => is_macos
  | PlatformIdentity.linux => is_linux
  | PlatformIdentity.other => is_other

/-- `get_shell_command` from platform_utils.py. -/
def get_shell_command (sys : String) (command : String) : List String :=
  if is_windows sys then
    ["cmd", "/c", command]
  else
    ["sh", "-c", command]

/-- `get_npm_install_command` from platform_utils.py. -/
def get_npm_install_command (sys : String) (frontend_dir : String) : String :=
  if is_windows sys then
    "cd " ++ frontend_dir ++ " && npm install"
  else
    "npm --prefix " ++ frontend_dir ++ " install"

/-- `check_command_exists` from platform_utils.py:
`shutil.which(command) is not None`, with `shutil.which` passed
explicitly as `which`. -/
def check_command_exists (which : String → Option String) (command : String) : Bool :=
  (which command).isSome

/-- `get_make_command` from platform_utils.py: probe
`["make", "gmake", "mingw32-make"]` in order, return the first that
exists on PATH, else `none`. -/
def get_make_command (which : String → Option String) : Option String :=
  let make_commands := ["make", "gmake", "mingw32-make"]
  make_commands.find? (fun cmd => check_command_exists which cmd)

/-- The Windows branch text of `suggest_make_installation`
(platform_utils.py lines 106-125). -/
def make_win_text : String :=
  "\nMake is not available. To install make on Windows, use one of these options:\n\n1. Using Chocolatey:\n   choco install make\n\n2. Using Winget:\n   winget install GnuWin32.Make\n\n3. Using Scoop:\n   scoop install make\n\n4. Using Visual Studio Build Tools (includes nmake):\n   - Install Visual Studio Build Tools\n   - Use \x27nmake\x27 instead of \x27make\x27\n\n5. Using WSL (Windows Subsystem for Linux):\n   wsl --install\n   # Then use make within WSL\n"

/-- The macOS branch text of `suggest_make_installation`
(platform_utils.py lines 127-135). -/
def make_mac_text : String :=
  "\nMake is not available. To install make on macOS:\n\n1. Install Xcode Command Line Tools:\n   xcode-select --install\n\n2. Using Homebrew:\n   brew install make\n"

/-- The Linux (else) branch text of `suggest_make_installation`
(platform_utils.py lines 137-150). -/
def make_linux_text : String :=
  "\nMake is not available. To install make on Linux:\n\n1. Ubuntu/Debian:\n   sudo apt update && sudo apt install build-essential\n\n2. CentOS/RHEL/Fedora:\n   sudo yum install make\n   # or\n   sudo dnf install make\n\n3. Arch Linux:\n   sudo pacman -S make\n"

/-- `suggest_make_installation` from platform_utils.py:
Windows text if `is_windows`, macOS text if `is_macos`, else the
Linux text. -/
def suggest_make_installation (sys : String) : String :=
  if is_windows sys then make_win_text
  else if is_macos sys then make_mac_text
  else make_linux_text

/-- The observable outcome of one spawned sub-process, as the operating
system determines it for a given working directory and token list. -/
structure OsProcessOracle where
  exitCode : Option String → List String → Int
  stdoutOf : Option String → List String → String
  stderrOf : Option String → List String → String

/-- Python's `subprocess.CompletedProcess` (the fields the module
uses): `stdout`/`stderr` are `none` when output was not captured. -/
structure CompletedProcess where
  args : List String
  returncode : Int
  stdout : Option String
  stderr : Option String
deriving DecidableEq, Repr

/-- Python's `subprocess.CalledProcessError` (the fields the module
uses): the command that was run, its exit code, and the captured
output streams. -/
structure CalledProcessError where
  cmd : List String
  returncode : Int
  stdout : Option String
  stderr : Option String
deriving DecidableEq, Repr

/-- Python's `subprocess.run(args, cwd=cwd, capture_output=capture,
check=check)`: returns the completed process, or raises
`CalledProcessError` exactly when `check` is set and the exit code is
non-zero. -/
def subprocessRun (os : OsProcessOracle) (args : List String)
    (cwd : Option String) (capture : Bool) (check : Bool) :
    Except CalledProcessError CompletedProcess :=
  let r : CompletedProcess :=
    { args := args
      returncode := os.exitCode cwd args
      stdout := if capture then some (os.stdoutOf cwd args) else none
      stderr := if capture then some (os.stderrOf cwd args) else none }
  if check = true ∧ r.returncode ≠ 0 then
    Except.error
      { cmd := args
        returncode := r.returncode
        stdout := r.stdout
        stderr := r.stderr }
  else
    Except.ok r

/-- `run_cross_platform_command` from platform_utils.py: build the
shell invocation with `get_shell_command`, run it with
`subprocess.run`; the `except` clause only logs and re-raises, so the
error channel is passed through unchanged. -/
def run_cross_platform_command (os : OsProcessOracle) (sys : String)
    (command : String) (cwd : Option String) (capture_output : Bool)
    (check : Bool) : Except CalledProcessError CompletedProcess :=
  let shell_cmd := get_shell_command sys command
  subprocessRun os shell_cmd cwd capture_output check

/-- The process environment: variable name to value, `none` = unset. -/
def Env : Type := String → Option String

/-- Python's `os.environ.setdefault(k, v)` as an environment
transformer: binds `k` to `v` only when `k` is unset. -/
def setdefault (env : Env) (k v : String) : Env :=
  fun x => if x = k then some ((env k).getD v) else env x

/-- `ensure_utf8_encoding` from platform_utils.py: on Windows,
`setdefault PYTHONIOENCODING utf-8`, and, when `os` has an
`add_dll_directory` attribute (passed explicitly as
`hasAddDllDirectory`), also `setdefault PYTHONUTF8 1`; elsewhere a
no-op. -/
def ensure_utf8_encoding (sys : String) (hasAddDllDirectory : Bool)
    (env : Env) : Env :=
  if is_windows sys then
    let env1 := setdefault env "PYTHONIOENCODING" "utf-8"
    if hasAddDllDirectory then setdefault env1 "PYTHONUTF8" "1" else env1
  else
    env

/-- The filesystem as a map from path to file content. -/
def FileSystem : Type := String → Option String

/-- Writing one file: the new filesystem after `open(p, "w")` +
`f.write(c)` succeed. -/
def writeFS (fs : FileSystem) (p : String) (c : String) : FileSystem :=
  fun q => if q = p then some c else fs q

/-- `batch_content` from `create_platform_specific_scripts`
(platform_utils.py lines 272-319). -/
def batch_content : String :=
  "@echo off\nREM Windows batch script for Agent Starter Pack\n\nset SCRIPT_DIR=%~dp0\ncd /d \"%SCRIPT_DIR%\"\n\nif \"%1\"==\"install\" goto install\nif \"%1\"==\"playground\" goto playground\nif \"%1\"==\"test\" goto test\nif \"%1\"==\"lint\" goto lint\ngoto help\n\n:install\necho Installing dependencies...\nuv sync --dev --extra jupyter --extra streamlit\nif exist \"frontend\" (\n    cd frontend && npm install && cd ..\n)\ngoto end\n\n:playground\necho Starting playground...\nuv run streamlit run app/main.py\ngoto end\n\n:test\necho Running tests...\nuv run pytest tests/\ngoto end\n\n:lint\necho Running linters...\nuv run ruff check .\nuv run mypy .\ngoto end\n\n:help\necho Available commands:\necho   install    - Install dependencies\necho   playground - Start the development playground\necho   test       - Run tests\necho   lint       - Run linters\necho.\necho Usage: build.bat [command]\ngoto end\n\n:end\n"

/-- `powershell_content` from `create_platform_specific_scripts`
(platform_utils.py lines 322-365). -/
def powershell_content : String :=
  "# PowerShell script for Agent Starter Pack\n\nparam(\n    [Parameter(Position=0)]\n    [string]$Command = \"help\"\n)\n\n$ScriptDir = Split-Path -Parent $MyInvocation.MyCommand.Path\nSet-Location $ScriptDir\n\nswitch ($Command) \x7b\n    \"install\" \x7b\n        Write-Host \"Installing dependencies...\" -ForegroundColor Green\n        uv sync --dev --extra jupyter --extra streamlit\n        if (Test-Path \"frontend\") \x7b\n            Set-Location frontend\n            npm install\n            Set-Location ..\n        \x7d\n    \x7d\n    \"playground\" \x7b\n        Write-Host \"Starting playground...\" -ForegroundColor Green\n        uv run streamlit run app/main.py\n    \x7d\n    \"test\" \x7b\n        Write-Host \"Running tests...\" -ForegroundColor Green\n        uv run pytest tests/\n    \x7d\n    \"lint\" \x7b\n        Write-Host \"Running linters...\" -ForegroundColor Green\n        uv run ruff check .\n        uv run mypy .\n    \x7d\n    default \x7b\n        Write-Host \"Available commands:\" -ForegroundColor Yellow\n        Write-Host \"  install    - Install dependencies\"\n        Write-Host \"  playground - Start the development playground\"\n        Write-Host \"  test       - Run tests\"\n        Write-Host \"  lint       - Run linters\"\n        Write-Host \"\"\n        Write-Host \"Usage: ./build.ps1 [command]\"\n    \x7d\n\x7d\n"

/-- `create_platform_specific_scripts` from platform_utils.py: write
`build.bat` then `build.ps1` under `project_path`; the whole body sits
in `try/except Exception`, so the first failing write stops further
writes, a warning is logged, and the function returns normally with
whatever writes already took effect. -/
def create_platform_specific_scripts (writeFails : String → Bool)
    (fs : FileSystem) (project_path : String) : FileSystem :=
  let batch_file := project_path ++ "/build.bat"
  if writeFails batch_file then
    fs
  else
    let fs1 := writeFS fs batch_file batch_content
    let ps_file := project_path ++ "/build.ps1"
    if writeFails ps_file then
      fs1
    else
      writeFS fs1 ps_file powershell_content

/-- `pat` occurs as a contiguous run inside `l`. -/
def listContainsSub : List Char → List Char → Bool
  | pat, [] => pat.isEmpty
  | pat, c :: cs => pat.isPrefixOf (c :: cs) || listContainsSub pat cs

/-- `pat` occurs as a substring of `s`. -/
def containsStr (s pat : String) : Bool :=
  listContainsSub pat.data s.data

/-! ## Helper lemmas -/

theorem str_data_append (s t : String) : (s ++ t).data = s.data ++ t.data := by
  cases s; cases t; rfl

theorem str_append_right_ne (s : String) {a b : String} (h : a ≠ b) :
    s ++ a ≠ s ++ b := by
  intro heq
  apply h
  have hd := congrArg String.data heq
  rw [str_data_append, str_data_append] at hd
  exact String.ext (List.append_cancel_left hd)

theorem isPrefixOf_append_self (l r : List Char) :
    l.isPrefixOf (l ++ r) = true := by
  induction l with
  | nil => cases r <;> rfl
  | cons a t ih => simp [List.isPrefixOf, ih]

theorem listContainsSub_middle (pat l r : List Char) :
    listContainsSub pat (l ++ (pat ++ r)) = true := by
  induction l with
  | nil =>
    cases pat with
    | nil =>
      cases r with
      | nil => rfl
      | cons c cs => simp [listContainsSub, List.isPrefixOf]
    | cons p ps =>
      simp [listContainsSub, isPrefixOf_append_self]
  | cons a t ih =>
    simp [listContainsSub, ih]

theorem containsStr_append_middle (a d b : String) :
    containsStr (a ++ d ++ b) d = true := by
  unfold containsStr
  have hd : (a ++ d ++ b).data = a.data ++ (d.data ++ b.data) := by
    rw [str_data_append, str_data_append, List.append_assoc]
  rw [hd]
  exact listContainsSub_middle _ _ _

/-! ## Claims -/

/-- C1: every OS-name string is classified by `detect_platform` into
exactly one of the four `PlatformIdentity` variants, and exactly one of
the four derived boolean predicates (`is_windows`, `is_macos`,
`is_linux`, and the Other case `is_other`) is true on it — moreover
`detect_platform` picks exactly the variant whose predicate is true. -/
theorem detect_platform_exactly_one (sys : String) :
    (cond (is_windows sys) 1 0) + (cond (is_macos sys) 1 0) +
      (cond (is_linux sys) 1 0) + (cond (is_other sys) 1 0) = 1 ∧
    predicate_of (detect_platform sys) sys = true := by
  by_cases hw : sys = "Windows"
  · subst hw; decide
  · by_cases hm : sys = "Darwin"
    · subst hm; decide
    · by_cases hl : sys = "Linux"
      · subst hl; decide
      · have hw' : is_windows sys = false := by
          simp [is_windows, hw]
        have hm' : is_macos sys = false := by
          simp [is_macos, hm]
        have hl' : is_linux sys = false := by
          simp [is_linux, hl]
        refine ⟨?_, ?_⟩
        · simp [hw', hm', hl', is_other]
        · simp [detect_platform, predicate_of, is_other, hw', hm', hl']

/-- C3: `get_shell_command` returns `["cmd", "/c", command]` on a
Windows identity and `["sh", "-c", command]` otherwise, with the third
token the command string verbatim. -/
theorem get_shell_command_spec (sys command : String) :
    get_shell_command sys command =
      (if is_windows sys then ["cmd", "/c", command]
       else ["sh", "-c", command]) ∧
    (get_shell_command sys command)[2]? = some command := by
  refine ⟨rfl, ?_⟩
  unfold get_shell_command
  by_cases h : is_windows sys = true <;> simp [h]

/-- C4: `get_npm_install_command` returns `"cd {dir} && npm install"`
on a Windows identity and `"npm --prefix {dir} install"` otherwise,
and in both cases the directory string occurs verbatim (unescaped) as
a substring of the result. -/
theorem get_npm_install_command_spec (sys frontend_dir : String) :
    get_npm_install_command sys frontend_dir =
      (if is_windows sys then "cd " ++ frontend_dir ++ " && npm install"
       else "npm --prefix " ++ frontend_dir ++ " install") ∧
    containsStr (get_npm_install_command sys frontend_dir) frontend_dir
      = true := by
  refine ⟨rfl, ?_⟩
  unfold get_npm_install_command
  by_cases h : is_windows sys = true <;>
    simp [h, containsStr_append_middle]

/-- C5: `get_make_command` returns the first of `make`, `gmake`,
`mingw32-make` — in exactly that order — that resolves on PATH, and
`none` when none of the three resolves. -/
theorem get_make_command_first (which : String → Option String) :
    get_make_command which =
      (if (which "make").isSome = true then some "make"
       else if (which "gmake").isSome = true then some "gmake"
       else if (which "mingw32-make").isSome = true then some "mingw32-make"
       else none) := by
  unfold get_make_command check_command_exists
  by_cases h1 : (which "make").isSome = true <;>
    by_cases h2 : (which "gmake").isSome = true <;>
      by_cases h3 : (which "mingw32-make").isSome = true <;>
        simp [List.find?, h1, h2, h3]

/-- C9: on every platform identity that is neither Windows nor macOS —
in particular on any unrecognised OS name — `suggest_make_installation`
returns the very same advisory text as on Linux. -/
theorem suggest_make_installation_other (sys : String)
    (hw : is_windows sys = false) (hm : is_macos sys = false) :
    suggest_make_installation sys = suggest_make_installation "Linux" := by
  unfold suggest_make_installation
  rw [hw, hm]
  simp [is_windows, is_macos]

/-- Witness for C9 at the concrete unrecognised OS name "FreeBSD". -/
theorem suggest_make_installation_other_witness :
    suggest_make_installation "FreeBSD" = suggest_make_installation "Linux" :=
  suggest_make_installation_other "FreeBSD" (by decide) (by decide)

/-! ## Environment helper lemmas -/

theorem setdefault_eval_eq (m : Env) (k v : String) :
    setdefault m k v k = some ((m k).getD v) := by
  simp [setdefault]

theorem setdefault_eval_ne (m : Env) (k v x : String) (h : x ≠ k) :
    setdefault m k v x = m x := by
  simp [setdefault, h]

theorem setdefault_preserves (m : Env) (k v x w : String)
    (h : m x = some w) : setdefault m k v x = some w := by
  unfold setdefault
  by_cases hx : x = k
  · subst hx; simp [h]
  · simp [hx, h]

theorem setdefault_congr (m m' : Env) (k v x : String)
    (h : ∀ y, m y = m' y) : setdefault m k v x = setdefault m' k v x := by
  simp [setdefault, h]

theorem setdefault_already (m : Env) (k v : String)
    (h : (m k).isSome = true) (x : String) : setdefault m k v x = m x := by
  unfold setdefault
  by_cases hx : x = k
  · subst hx
    cases hm : m x with
    | none => rw [hm] at h; simp at h
    | some w => simp [hm]
  · simp [hx]

/-- C6: `ensure_utf8_encoding` is idempotent — a second call leaves the
environment exactly as the first call left it — and it never
overwrites a pre-existing value of any variable. -/
theorem ensure_utf8_encoding_spec (sys : String) (hasAddDllDirectory : Bool)
    (env : Env) :
    (∀ x, ensure_utf8_encoding sys hasAddDllDirectory
        (ensure_utf8_encoding sys hasAddDllDirectory env) x =
      ensure_utf8_encoding sys hasAddDllDirectory env x) ∧
    (∀ k v, env k = some v →
      ensure_utf8_encoding sys hasAddDllDirectory env k = some v) := by
  by_cases hwin : is_windows sys = true
  · by_cases hd : hasAddDllDirectory = true
    · constructor
      · intro x
        simp only [ensure_utf8_encoding, hwin, hd, if_true]
        have hE1 : ((setdefault (setdefault env "PYTHONIOENCODING" "utf-8")
            "PYTHONUTF8" "1") "PYTHONIOENCODING").isSome = true := by
          rw [setdefault_eval_ne _ _ _ _ (by decide)]
          rw [setdefault_eval_eq]
          rfl
        have hstep : ∀ y, setdefault (setdefault (setdefault env
            "PYTHONIOENCODING" "utf-8") "PYTHONUTF8" "1")
            "PYTHONIOENCODING" "utf-8" y =
            setdefault (setdefault env "PYTHONIOENCODING" "utf-8")
            "PYTHONUTF8" "1" y :=
          setdefault_already _ _ _ hE1
        rw [setdefault_congr _ _ _ _ _ hstep]
        apply setdefault_already
        rw [setdefault_eval_eq]
        rfl
      · intro k v h
        simp only [ensure_utf8_encoding, hwin, hd, if_true]
        exact setdefault_preserves _ _ _ _ _
          (setdefault_preserves _ _ _ _ _ h)
    · have hd' : hasAddDllDirectory = false := by
        cases hasAddDllDirectory
        · rfl
        · exact absurd rfl hd
      constructor
      · intro x
        simp only [ensure_utf8_encoding, hwin, hd', if_true, Bool.false_eq_true,
          if_false]
        apply setdefault_already
        rw [setdefault_eval_eq]
        rfl
      · intro k v h
        simp only [ensure_utf8_encoding, hwin, hd', if_true, Bool.false_eq_true,
          if_false]
        exact setdefault_preserves _ _ _ _ _ h
  · constructor
    · intro x
      simp [ensure_utf8_encoding, hwin]
    · intro k v h
      simp [ensure_utf8_encoding, hwin, h]

/-- Witness for C6: on Windows, with `PYTHONIOENCODING` already set to
`latin-1`, the setup call leaves that explicit value in place. -/
theorem ensure_utf8_encoding_spec_witness :
    ensure_utf8_encoding "Windows" true
      (fun x => if x = "PYTHONIOENCODING" then some "latin-1" else none)
      "PYTHONIOENCODING" = some "latin-1" :=
  (ensure_utf8_encoding_spec "Windows" true
      (fun x => if x = "PYTHONIOENCODING" then some "latin-1" else none)).2
    "PYTHONIOENCODING" "latin-1" (by simp)

/-- C2: `run_cross_platform_command` fails with a `CalledProcessError`
exactly when `check` is set and the spawned sub-process exits non-zero;
the error carries the executed invocation — whose third token is the
original command text verbatim — and the captured stderr; otherwise the
completed process (stdout, stderr, exit code) of the single spawn is
returned.  The outcome depends only on the operating system's behaviour
at the one shell invocation actually spawned: the process is spawned
once and never retried. -/
theorem run_cross_platform_command_spec (os : OsProcessOracle)
    (sys command : String) (cwd : Option String)
    (capture_output check : Bool) :
    (check = true →
      os.exitCode cwd (get_shell_command sys command) ≠ 0 →
      run_cross_platform_command os sys command cwd capture_output check =
        Except.error
          { cmd := get_shell_command sys command
            returncode := os.exitCode cwd (get_shell_command sys command)
            stdout := if capture_output then
                some (os.stdoutOf cwd (get_shell_command sys command))
              else none
            stderr := if capture_output then
                some (os.stderrOf cwd (get_shell_command sys command))
              else none }) ∧
    (∀ e, run_cross_platform_command os sys command cwd capture_output check
        = Except.error e →
      check = true ∧ e.returncode ≠ 0 ∧ e.cmd[2]? = some command ∧
      e.stderr = (if capture_output then
          some (os.stderrOf cwd (get_shell_command sys command))
        else none)) ∧
    (check = false ∨ os.exitCode cwd (get_shell_command sys command) = 0 →
      run_cross_platform_command os sys command cwd capture_output check =
        Except.ok
          { args := get_shell_command sys command
            returncode := os.exitCode cwd (get_shell_command sys command)
            stdout := if capture_output then
                some (os.stdoutOf cwd (get_shell_command sys command))
              else none
            stderr := if capture_output then
                some (os.stderrOf cwd (get_shell_command sys command))
              else none }) ∧
    (∀ os2 : OsProcessOracle,
      os.exitCode cwd (get_shell_command sys command) =
        os2.exitCode cwd (get_shell_command sys command) →
      os.stdoutOf cwd (get_shell_command sys command) =
        os2.stdoutOf cwd (get_shell_command sys command) →
      os.stderrOf cwd (get_shell_command sys command) =
        os2.stderrOf cwd (get_shell_command sys command) →
      run_cross_platform_command os sys command cwd capture_output check =
        run_cross_platform_command os2 sys command cwd capture_output check) := by
  refine ⟨?_, ?_, ?_, ?_⟩
  · intro hc hnz
    simp [run_cross_platform_command, subprocessRun, hc, hnz]
  · intro e he
    unfold run_cross_platform_command subprocessRun at he
    by_cases h : check = true ∧ os.exitCode cwd (get_shell_command sys command) ≠ 0
    · rw [if_pos h] at he
      have he' := (Except.error.injEq _ _ ).mp he.symm
      subst he'
      refine ⟨h.1, h.2, ?_, rfl⟩
      unfold get_shell_command
      by_cases hw : is_windows sys = true <;> simp [hw]
    · rw [if_neg h] at he
      exact absurd he (by simp)
  · intro h
    have h' : ¬(check = true ∧
        os.exitCode cwd (get_shell_command sys command) ≠ 0) := by
      rcases h with h | h
      · intro hc; rw [h] at hc; exact Bool.false_ne_true hc.1
      · intro hc; exact hc.2 h
    simp only [run_cross_platform_command, subprocessRun]
    rw [if_neg h']
  · intro os2 h1 h2 h3
    simp only [run_cross_platform_command, subprocessRun, h1, h2, h3]

/-- Witness for C2: a concrete OS oracle in which every process exits
with code 1 and prints "boom" on stderr; running `false` through the
shell with `check` set yields the matching error. -/
theorem run_cross_platform_command_spec_witness :
    run_cross_platform_command
      { exitCode := fun _ _ => 1
        stdoutOf := fun _ _ => ""
        stderrOf := fun _ _ => "boom" }
      "Linux" "false" none true true =
      Except.error
        { cmd := ["sh", "-c", "false"]
          returncode := 1
          stdout := some ""
          stderr := some "boom" } := by
  have h := (run_cross_platform_command_spec
      { exitCode := fun _ _ => 1
        stdoutOf := fun _ _ => ""
        stderrOf := fun _ _ => "boom" }
      "Linux" "false" none true true).1 rfl (by decide)
  simpa using h

/-! ## Script-creation helper lemmas -/

theorem bat_ne_ps (d : String) :
    d ++ "/build.bat" ≠ d ++ "/build.ps1" :=
  str_append_right_ne d (by decide)

theorem create_scripts_eval_bat (fs : FileSystem) (d : String) :
    create_platform_specific_scripts (fun _ => false) fs d
      (d ++ "/build.bat") = some batch_content := by
  simp [create_platform_specific_scripts, writeFS, bat_ne_ps d]

theorem create_scripts_eval_ps (fs : FileSystem) (d : String) :
    create_platform_specific_scripts (fun _ => false) fs d
      (d ++ "/build.ps1") = some powershell_content := by
  simp [create_platform_specific_scripts, writeFS]

theorem create_scripts_eval_other (fs : FileSystem) (d p : String)
    (h1 : p ≠ d ++ "/build.bat") (h2 : p ≠ d ++ "/build.ps1") :
    create_platform_specific_scripts (fun _ => false) fs d p = fs p := by
  simp [create_platform_specific_scripts, writeFS, h1, h2]

/-- C7: whatever subset of the two file writes fails,
`create_platform_specific_scripts` returns a filesystem normally — the
failure is swallowed (only logged), no exception reaches the caller,
no path other than the two script paths is ever touched, and the
writes that happened before the failure are kept. -/
theorem create_platform_specific_scripts_recovers
    (writeFails : String → Bool) (fs : FileSystem) (project_path : String) :
    (∀ p, p ≠ project_path ++ "/build.bat" →
      p ≠ project_path ++ "/build.ps1" →
      create_platform_specific_scripts writeFails fs project_path p = fs p) ∧
    (writeFails (project_path ++ "/build.bat") = true →
      create_platform_specific_scripts writeFails fs project_path = fs) ∧
    (writeFails (project_path ++ "/build.bat") = false →
      writeFails (project_path ++ "/build.ps1") = true →
      create_platform_specific_scripts writeFails fs project_path =
        writeFS fs (project_path ++ "/build.bat") batch_content) := by
  refine ⟨?_, ?_, ?_⟩
  · intro p h1 h2
    unfold create_platform_specific_scripts
    by_cases hb : writeFails (project_path ++ "/build.bat") = true
    · simp [hb]
    · by_cases hp : writeFails (project_path ++ "/build.ps1") = true
      · simp [hb, hp, writeFS, h1]
      · simp [hb, hp, writeFS, h1, h2]
  · intro h
    simp [create_platform_specific_scripts, h]
  · intro h1 h2
    simp [create_platform_specific_scripts, h1, h2]

/-- Witness for C7: when every write fails, the call still returns and
the filesystem is untouched. -/
theorem create_platform_specific_scripts_recovers_witness :
    create_platform_specific_scripts (fun _ => true)
      (fun _ => none) "proj" = (fun _ => none) :=
  (create_platform_specific_scripts_recovers (fun _ => true)
    (fun _ => none) "proj").2.1 rfl

set_option maxRecDepth 40000 in
/-- C8: with writes succeeding, `create_platform_specific_scripts`
writes exactly the two files `build.bat` and `build.ps1` (every other
path keeps its previous content); the batch file contains "@echo off"
and the four command names, the PowerShell file contains "param(",
"switch" and the same four names; and a second call over the first
call's result changes nothing — the overwrite is idempotent,
last-write-wins. -/
theorem create_platform_specific_scripts_two_files
    (fs : FileSystem) (project_path : String) :
    (create_platform_specific_scripts (fun _ => false) fs project_path
      (project_path ++ "/build.bat") = some batch_content) ∧
    (create_platform_specific_scripts (fun _ => false) fs project_path
      (project_path ++ "/build.ps1") = some powershell_content) ∧
    (∀ p, p ≠ project_path ++ "/build.bat" →
      p ≠ project_path ++ "/build.ps1" →
      create_platform_specific_scripts (fun _ => false) fs project_path p
        = fs p) ∧
    (create_platform_specific_scripts (fun _ => false)
      (create_platform_specific_scripts (fun _ => false) fs project_path)
      project_path =
      create_platform_specific_scripts (fun _ => false) fs project_path) ∧
    (containsStr batch_content "@echo off" = true ∧
      containsStr batch_content "install" = true ∧
      containsStr batch_content "playground" = true ∧
      containsStr batch_content "test" = true ∧
      containsStr batch_content "lint" = true) ∧
    (containsStr powershell_content "param(" = true ∧
      containsStr powershell_content "switch" = true ∧
      containsStr powershell_content "install" = true ∧
      containsStr powershell_content "playground" = true ∧
      containsStr powershell_content "test" = true ∧
      containsStr powershell_content "lint" = true) := by
  refine ⟨create_scripts_eval_bat fs project_path,
    create_scripts_eval_ps fs project_path,
    create_scripts_eval_other fs project_path,
    ?_, by decide, by decide⟩
  funext p
  by_cases h1 : p = project_path ++ "/build.bat"
  · subst h1
    rw [create_scripts_eval_bat, create_scripts_eval_bat]
  · by_cases h2 : p = project_path ++ "/build.ps1"
    · subst h2
      rw [create_scripts_eval_ps, create_scripts_eval_ps]
    · rw [create_scripts_eval_other _ _ _ h1 h2,
        create_scripts_eval_other _ _ _ h1 h2]

/-- Witness for C8: on an empty filesystem, a path other than the two
script paths stays absent. -/
theorem create_platform_specific_scripts_two_files_witness :
    create_platform_specific_scripts (fun _ => false)
      (fun _ => none) "proj" "README.md" = none :=
  (create_platform_specific_scripts_two_files
    (fun _ => none) "proj").2.2.1 "README.md" (by decide) (by decide)

/-- C10: the two script bodies written by
`create_platform_specific_scripts` are fixed constants: the function
consults no platform identity (its embedding takes none), and the
content written is the same for every target directory and every
starting filesystem — the directory only chooses where the files
land. -/
theorem create_platform_specific_scripts_fixed_content
    (fs1 fs2 : FileSystem) (d1 d2 : String) :
    create_platform_specific_scripts (fun _ => false) fs1 d1
        (d1 ++ "/build.bat") =
      create_platform_specific_scripts (fun _ => false) fs2 d2
        (d2 ++ "/build.bat") ∧
    create_platform_specific_scripts (fun _ => false) fs1 d1
        (d1 ++ "/build.ps1") =
      create_platform_specific_scripts (fun _ => false) fs2 d2
        (d2 ++ "/build.ps1") ∧
    create_platform_specific_scripts (fun _ => false) fs1 d1
        (d1 ++ "/build.bat") = some batch_content ∧
    create_platform_specific_scripts (fun _ => false) fs1 d1
        (d1 ++ "/build.ps1") = some powershell_content := by
  refine ⟨?_, ?_, create_scripts_eval_bat fs1 d1,
    create_scripts_eval_ps fs1 d1⟩
  · rw [create_scripts_eval_bat, create_scripts_eval_bat]
  · rw [create_scripts_eval_ps, create_scripts_eval_ps]
